import Mathlib

/-!
Verification of the synthetic-data-lab tutorial notebooks.

The repository is a set of Jupyter notebooks that drive an external
synthetic-data library (synthcity).  We embed the notebook cells that the
claims are about as Lean functions:
  * the file system is a partial map from path strings to serialized
    generator states;
  * a generator handle records its plugin name and whether it has been fit;
  * each cell produces the sequence of library calls it performs (an
    `Act` trace), so that claims about which calls happen on which
    branch become statements about traces.
-/

/-- A generator handle: the plugin name it was obtained under, and whether
`fit` has been called on it (directly or in the state it was restored from). -/
structure Gen where
  name : String
  fitted : Bool
deriving DecidableEq, Repr

/-- The file system visible to the notebooks: a map from path to the
generator state serialized at that path (`none` when no file exists).
Serialization is a pass-through of the external library's format, so a
stored blob is modelled as the `Gen` value itself. -/
def FS := String → Option Gen

/-- Writing a serialized generator to a path (`serialization.save_to_file`). -/
def fsUpdate (fs : FS) (p : String) (g : Gen) : FS :=
  fun q => if q = p then some g else fs q

/-- `Plugins().get(model, ...)`: a fresh, unfit generator handle. -/
def pluginsGet (m : String) : Gen := ⟨m, false⟩

/-- `syn_model.fit(loader, ...)`: the handle becomes fit. -/
def fitGen (g : Gen) : Gen := ⟨g.name, true⟩

/-- The observable library calls a notebook cell performs. -/
inductive Act where
  | getPlugin (m : String)
  | fitCall (m : String)
  | save (p : String)
  | load (p : String)
  | generate (m : String) (fitted : Bool)
deriving DecidableEq, Repr

/- Backup-file paths, assembled exactly as the notebooks' f-strings do. -/

/-- Case Study 2, cell cc8edf5e: `prefix` variable. -/
def cs2Pfx : String := "fairness.conditional_augmentation"

/-- Case Study 2, cell cc8edf5e: `model` variable. -/
def cs2Model : String := "ctgan"

/-- Case Study 2, cell cc8edf5e: `random_state` variable. -/
def cs2RandomState : Nat := 42

/-- Case Study 2, cell bc3f6a7a:
`Path("saved_models") / f"{prefix}_{model}_numericalised_rnd={random_state}.bkp"`. -/
def cs2SaveFile : String :=
  "saved_models/" ++ cs2Pfx ++ "_" ++ cs2Model ++ "_numericalised_rnd="
    ++ toString cs2RandomState ++ ".bkp"

/-- Case Study 2, cell 08a73c76 (decaf):
`Path("saved_models") / f"{prefix}_{model}_n_iter={n_iter}_rnd={random_state}.bkp"`
with `prefix = "fairness.causal_generation"`, `model = "decaf"`,
`n_iter = 101`, `random_state = 6`. -/
def cs2DecafSaveFile : String :=
  "saved_models/" ++ "fairness.causal_generation" ++ "_" ++ "decaf"
    ++ "_n_iter=" ++ toString 101 ++ "_rnd=" ++ toString 6 ++ ".bkp"

/-- Case Study 3, cell 3252ae89: `n_iter = 100`, `random_state = 42`. -/
def cs3NIter : Nat := 100

/-- Case Study 3 random state. -/
def cs3RandomState : Nat := 42

/-- Case Study 3, cells 1a4df9e4 / 26b938f8:
`outdir / f"{prefix}.{model}_numericalised_n_iter={n_iter}_rnd={random_state}.bkp"`. -/
def cs3SaveFile (model : String) : String :=
  "saved_models/" ++ "privacy" ++ "." ++ model ++ "_numericalised_n_iter="
    ++ toString cs3NIter ++ "_rnd=" ++ toString cs3RandomState ++ ".bkp"

/-- Case Study 3, cell 3252ae89: the `models` list. -/
def cs3Models : List String := ["dpgan", "adsgan", "pategan"]

/-- Case Study 4, cell 5: `region_mapper` dictionary. -/
def regionMapper : Nat → String
  | 0 => "Central-West"
  | 1 => "North"
  | 2 => "North-East"
  | 3 => "South"
  | _ => "South-East"

/-- Case Study 4, cell 25:
`outdir / f"{prefix}.{model}_numericalised_{region_mapper[our_region_index]}_n_iter={n_iter}_rnd={random_state}_final.bkp"`
with `prefix = "augmentation"`, `model = "radialgan"`, `our_region_index = 0`,
`n_iter = 100`, `random_state = 7`. -/
def cs4SaveFile : String :=
  "saved_models/" ++ "augmentation" ++ "." ++ "radialgan" ++ "_numericalised_"
    ++ regionMapper 0 ++ "_n_iter=" ++ toString 100 ++ "_rnd=" ++ toString 7
    ++ "_final.bkp"

/- The load-or-fit cells. -/

/-- The shared shape of the load-or-fit cells: if a file exists at `p`, the
generator is restored from it via `serialization.load_from_file`; otherwise a
fresh plugin named `m` is obtained, fit, and saved to exactly `p` via
`serialization.save_to_file`.  Returns the bound `syn_model`, the resulting
file system, and the trace of library calls. -/
def loadOrFitCell (p m : String) (fs : FS) : Gen × FS × List Act :=
  match fs p with
  | some g => (g, fs, [Act.load p])
  | none =>
      let g := fitGen (pluginsGet m)
      (g, fsUpdate fs p g, [Act.getPlugin m, Act.fitCall m, Act.save p])

/-- Case Study 2, cell bc3f6a7a: load the ctgan model from the backup if it
exists, otherwise `Plugins().get("ctgan", ...)`, fit, and save. -/
def cs2LoadOrFit (fs : FS) : Gen × FS × List Act :=
  loadOrFitCell cs2SaveFile cs2Model fs

/-- Case Study 2, cell 08a73c76: load the decaf model from the backup if it
exists, otherwise construct a fresh `decaf_plugin(...)` directly, fit it, and
save it.  (The DAG plotting in both branches does not touch the generator's
fit state.) -/
def cs2DecafLoadOrFit (fs : FS) : Gen × FS × List Act :=
  loadOrFitCell cs2DecafSaveFile "decaf" fs

/-- Case Study 3, cell 1a4df9e4, one iteration of the `for model in models`
loop: when the backup file does not exist, obtain a fresh plugin, fit it, and
save it; when it exists, the iteration performs nothing at all (in particular
it does not load the file). -/
def cs3ConstructStep (model : String) (fs : FS) : FS × List Act :=
  match fs (cs3SaveFile model) with
  | some _ => (fs, [])
  | none =>
      let g := fitGen (pluginsGet model)
      (fsUpdate fs (cs3SaveFile model) g,
        [Act.getPlugin model, Act.fitCall model, Act.save (cs3SaveFile model)])

/-- Case Study 3, cell 1a4df9e4: the whole loop over the three models. -/
def cs3ConstructRun (fs : FS) : FS × List Act :=
  let r1 := cs3ConstructStep "dpgan" fs
  let r2 := cs3ConstructStep "adsgan" r1.1
  let r3 := cs3ConstructStep "pategan" r2.1
  (r3.1, r1.2 ++ r2.2 ++ r3.2)

/-- Case Study 3, cell 26b938f8, one iteration of the evaluation loop: the
backup is loaded unconditionally via `serialization.load_from_file` (failing
with the underlying file error when it does not exist) and `generate` is then
called on the restored model. -/
def cs3EvalStep (model : String) (fs : FS) : Except String (List Act) :=
  match fs (cs3SaveFile model) with
  | none => Except.error ("file not found: " ++ cs3SaveFile model)
  | some g =>
      Except.ok [Act.load (cs3SaveFile model), Act.generate g.name g.fitted]

/-- Case Study 3, cell 26b938f8: the evaluation loop over the three models;
an exception in one iteration aborts the whole cell with that error. -/
def cs3EvalRun (fs : FS) : Except String (List Act) :=
  match cs3EvalStep "dpgan" fs with
  | Except.error e => Except.error e
  | Except.ok t1 =>
    match cs3EvalStep "adsgan" fs with
    | Except.error e => Except.error e
    | Except.ok t2 =>
      match cs3EvalStep "pategan" fs with
      | Except.error e => Except.error e
      | Except.ok t3 => Except.ok (t1 ++ t2 ++ t3)

/-- Case Study 4, cell 25: load the radialgan model from the backup if it
exists, otherwise obtain a fresh plugin, fit it, and save it. -/
def cs4LoadOrFit (fs : FS) : Gen × FS × List Act :=
  loadOrFitCell cs4SaveFile "radialgan" fs

/- Notebook-level traces for the fit-before-generate claim. -/

/-- Case Study 1 pattern (cells 227a53e1, 36d0ee9d, ca58d178, de443fc6,
c673fb15): obtain a plugin, fit it, and immediately generate from it. -/
def cs1FitThenGen (m : String) : List Act :=
  let g := fitGen (pluginsGet m)
  [Act.getPlugin m, Act.fitCall m, Act.generate g.name g.fitted]

/-- Case Study 1, full sequence of generator uses in linear cell order. -/
def cs1Trace : List Act :=
  cs1FitThenGen "marginal_distributions" ++ cs1FitThenGen "marginal_distributions"
    ++ cs1FitThenGen "timegan" ++ cs1FitThenGen "timegan" ++ cs1FitThenGen "timegan"

/-- Case Study 2, generator-relevant linear execution: the ctgan load-or-fit
cell (bc3f6a7a), the ctgan generate (fd53bdd8), the decaf load-or-fit cell
(08a73c76), and the decaf generate (9f8f17f4). -/
def cs2Trace (fs : FS) : List Act :=
  let r1 := cs2LoadOrFit fs
  let r2 := cs2DecafLoadOrFit r1.2.1
  r1.2.2 ++ [Act.generate r1.1.name r1.1.fitted]
    ++ r2.2.2 ++ [Act.generate r2.1.name r2.1.fitted]

/-- Case Study 3, generator-relevant linear execution: the construction loop
(1a4df9e4) followed by the evaluation loop (26b938f8). -/
def cs3Run (fs : FS) : Except String (List Act) :=
  let r1 := cs3ConstructRun fs
  match cs3EvalRun r1.1 with
  | Except.error e => Except.error e
  | Except.ok t2 => Except.ok (r1.2 ++ t2)

/-- Case Study 4, cell 35: the `generated_records` list the augmentation
sweep loops over. -/
def cs4GeneratedRecords : List Nat :=
  [100, 300, 500, 700, 900, 1000, 2000, 3000, 4000, 5000, 8000, 10000]

/-- Case Study 4, generator-relevant linear execution: the radialgan
load-or-fit cell (25), the generate of cell 27, and the generates of the
sweep loop in cell 35 (one per entry of `generated_records`, all on the same
bound `syn_model`). -/
def cs4Trace (fs : FS) : List Act :=
  let r := cs4LoadOrFit fs
  r.2.2 ++ [Act.generate r.1.name r.1.fitted]
    ++ cs4GeneratedRecords.map (fun _ => Act.generate r.1.name r.1.fitted)

/-- An action respects the fit-before-generate discipline when, if it is a
`generate`, the generator it runs on is fit. -/
def genFitted : Act → Bool
  | Act.generate _ b => b
  | _ => true

/-- Every `generate` in the trace runs on a fit generator. -/
def allGenFitted (tr : List Act) : Bool := tr.all genFitted

/-- Every backup file present in the file system holds a generator state that
was saved after a fit (the notebooks only ever save right after fitting). -/
def fsAllFitted (fs : FS) : Prop := ∀ p g, fs p = some g → g.fitted = true

/- Substring machinery for the filename-encoding claim. -/

/-- `isPrefixB pat l` decides whether `pat` is a prefix of `l`. -/
def isPrefixB : List Char → List Char → Bool
  | [], _ => true
  | _ :: _, [] => false
  | a :: as, b :: bs => a = b && isPrefixB as bs

/-- `containsB pat l` decides whether `pat` occurs contiguously in `l`. -/
def containsB (pat : List Char) : List Char → Bool
  | [] => isPrefixB pat []
  | b :: bs => isPrefixB pat (b :: bs) || containsB pat bs

/-- `encodes s sub`: the string `s` contains `sub` as a substring. -/
def encodes (s sub : String) : Bool := containsB sub.toList s.toList

/- Case Study 2 / 4: the time-horizon labeling cell. -/

/-- One row of the Brazil COVID dataset, restricted to the columns the
labeling cell reads, plus an opaque stand-in for all remaining columns. -/
structure CRow where
  is_dead : Int
  days_hospital_to_outcome : Int
  rest : Int
deriving DecidableEq, Repr

/-- Mask of the first assignment:
`(X["Days_hospital_to_outcome"] <= time_horizon) & (X["is_dead"] == 1)`. -/
def cond1 (r : CRow) : Bool :=
  decide (r.days_hospital_to_outcome ≤ 14) && decide (r.is_dead = 1)

/-- Mask of the second assignment: `X["Days_hospital_to_outcome"] > 14`. -/
def cond2 (r : CRow) : Bool := decide (r.days_hospital_to_outcome > 14)

/-- Mask of the third assignment: `X["is_dead"] == 0`. -/
def cond3 (r : CRow) : Bool := decide (r.is_dead = 0)

/-- How many of the three assignment masks select the row. -/
def condCount (r : CRow) : Nat :=
  (if cond1 r then 1 else 0) + (if cond2 r then 1 else 0) + (if cond3 r then 1 else 0)

/-- One masked assignment `X.loc[mask, col] = v` on the new column: rows the
mask selects get `v`, the rest keep the column's previous content (initially
absent, i.e. `none`); no other column is touched. -/
def maskedAssign (mask : CRow → Bool) (v : Int) (st : CRow × Option Int) :
    CRow × Option Int :=
  (st.1, if mask st.1 then some v else st.2)

/-- The labeling cell (Case Study 2 cell 77e4f82e, Case Study 4 cell 3): the
three masked assignments applied in program order to a row whose
`is_dead_at_time_horizon=14` column starts absent. -/
def labelRow (r : CRow) : CRow × Option Int :=
  maskedAssign cond3 0 (maskedAssign cond2 0 (maskedAssign cond1 1 (r, none)))

/- Case Study 2: the conditional-augmentation cell (fd53bdd8). -/

/-- A row as consumed by the augmentation cell: its `Ethnicity` column and an
opaque stand-in for the remaining columns. -/
structure ERow where
  ethnicity : Int
  payload : Int
deriving DecidableEq, Repr

/-- `augmented_data = pd.concat([X, syn_data.loc[syn_data["Ethnicity"] >= 2]])`. -/
def augmentedData (x synData : List ERow) : List ERow :=
  x ++ synData.filter (fun r => decide (2 ≤ r.ethnicity))

/- Case Study 3: the `highlights` styling function (cell 024dd64d). -/

/-- `np.min` over a row (rows of the metric table are non-empty; on an empty
row we return 0, a case the notebook never reaches). -/
def rowMin : List ℚ → ℚ
  | [] => 0
  | x :: xs => xs.foldl min x

/-- `np.max` over a row. -/
def rowMax : List ℚ → ℚ
  | [] => 0
  | x :: xs => xs.foldl max x

/-- `"background-color: green;"`. -/
def okHighlight : String := "background-color: green;"

/-- `"background-color: lightcoral;"`. -/
def badHighlight : String := "background-color: lightcoral;"

/-- The empty default style. -/
def defaultStyle : String := ""

/-- The `highlights` function of cell 024dd64d: pick best/worst by the row's
optimization direction, then style each cell green if it equals the best
value, else red if it equals the worst value, else default. -/
def highlights (direction : String) (row : List ℚ) : List String :=
  let best := if direction = "minimize" then rowMin row else rowMax row
  let worst := if direction = "minimize" then rowMax row else rowMin row
  row.map fun val =>
    if val = best then okHighlight
    else if val = worst then badHighlight
    else defaultStyle

/- Case Study 3: unconditional pickle/backup loads (error propagation). -/

/-- Case Study 2, cell d4f58702: the path of the pickled prognostic model. -/
def cs2PrognosticPath : String :=
  "../resources/fairness/" ++ "fairness_cond_aug_random_forest_real_data.sav"

/-- A resource file system for pickled / JSON models: path to opaque blob. -/
def RFS := String → Option Int

/-- Case Study 2, cell d4f58702: `with open(saved_model_path, "rb") as f:
prognostic_model = pickle.load(f)` — no surrounding try/except, so a missing
file surfaces as exactly the underlying file error. -/
def cs2LoadPrognostic (rfs : RFS) : Except String Int :=
  match rfs cs2PrognosticPath with
  | none => Except.error ("file not found: " ++ cs2PrognosticPath)
  | some m => Except.ok m

/- Case Study 2: the DECAF per-ethnicity prediction loop (cell 7e7244f0). -/

/-- Insert into a sorted list of predicted labels. -/
def insertSorted (x : Int) : List Int → List Int
  | [] => [x]
  | y :: ys => if x ≤ y then x :: y :: ys else y :: insertSorted x ys

/-- Sort predicted labels ascending (insertion sort). -/
def sortInts (l : List Int) : List Int := l.foldr insertSorted []

/-- `np.unique(predictions)`: the distinct predicted labels in ascending
order. -/
def uniqueSorted (l : List Int) : List Int := sortInts l.dedup

/-- One iteration of the per-ethnicity loop of cell 7e7244f0: it builds the
per-ethnicity slice but then calls `xgb_model.predict` on the whole
`synth_data_to_predict`; `prediction_counts` is built from `unique[0]`,
`unique[1]`, `counts[0]`, `counts[1]`, which raises an out-of-bounds
`IndexError` when fewer than two distinct labels are predicted. -/
def predStep (synth : List ERow) (predict : ERow → Int) (eth : Int) :
    Except String ((Int × Nat) × (Int × Nat)) :=
  let _slice := synth.filter (fun r => decide (r.ethnicity = eth))
  let preds := synth.map predict
  match uniqueSorted preds with
  | v0 :: v1 :: _ => Except.ok ((v0, preds.count v0), (v1, preds.count v1))
  | _ => Except.error "IndexError: index 1 is out of bounds"

/-- The whole per-ethnicity loop: one `prediction_counts` entry per ethnicity
index, aborting with the underlying error if an iteration raises. -/
def predLoop (eths : List Int) (synth : List ERow) (predict : ERow → Int) :
    Except String (List (Int × ((Int × Nat) × (Int × Nat)))) :=
  match eths with
  | [] => Except.ok []
  | e :: es =>
    match predStep synth predict e with
    | Except.error err => Except.error err
    | Except.ok p =>
      match predLoop es synth predict with
      | Except.error err => Except.error err
      | Except.ok ps => Except.ok ((e, p) :: ps)

/- Concrete fixtures used to instantiate the theorems. -/

/-- The empty file system (first-ever notebook run: no backups exist). -/
def fsEmpty : FS := fun _ => none

/-- The empty resource file system. -/
def rfsEmpty : RFS := fun _ => none

/-- A classifier that predicts the row's payload label. -/
def predictPayload : ERow → Int := fun r => r.payload

/-- A classifier that predicts the single class `1` on every row. -/
def predictConst : ERow → Int := fun _ => 1

/-- A two-row synthetic dataset on which `predictPayload` emits two classes. -/
def synthTwo : List ERow := [⟨0, 0⟩, ⟨1, 1⟩]

/- Helper lemmas. -/

theorem fsUpdate_self (fs : FS) (p : String) (g : Gen) : fsUpdate fs p g p = some g := by
  simp [fsUpdate]

theorem fsUpdate_other (fs : FS) (p : String) (g : Gen) (q : String) (h : q ≠ p) :
    fsUpdate fs p g q = fs q := by
  simp [fsUpdate, h]

theorem fsAllFitted_update {fs : FS} {p : String} {g : Gen}
    (h : fsAllFitted fs) (hg : g.fitted = true) : fsAllFitted (fsUpdate fs p g) := by
  intro q g' hq
  by_cases hqp : q = p
  · rw [hqp, fsUpdate_self] at hq
    cases hq
    exact hg
  · rw [fsUpdate_other fs p g q hqp] at hq
    exact h q g' hq

theorem allGenFitted_append (a b : List Act) :
    allGenFitted (a ++ b) = (allGenFitted a && allGenFitted b) := by
  simp [allGenFitted, List.all_append]

theorem loadOrFitCell_exists {fs : FS} {p m : String} {g : Gen} (h : fs p = some g) :
    loadOrFitCell p m fs = (g, fs, [Act.load p]) := by
  unfold loadOrFitCell
  rw [h]

theorem loadOrFitCell_absent {fs : FS} {p m : String} (h : fs p = none) :
    loadOrFitCell p m fs =
      (⟨m, true⟩, fsUpdate fs p ⟨m, true⟩,
        [Act.getPlugin m, Act.fitCall m, Act.save p]) := by
  unfold loadOrFitCell
  rw [h]
  rfl

theorem loadOrFitCell_spec {fs : FS} (p m : String) (h : fsAllFitted fs) :
    (loadOrFitCell p m fs).1.fitted = true ∧
    fsAllFitted (loadOrFitCell p m fs).2.1 ∧
    allGenFitted (loadOrFitCell p m fs).2.2 = true := by
  cases hfs : fs p with
  | some g =>
      rw [loadOrFitCell_exists hfs]
      exact ⟨h p g hfs, h, rfl⟩
  | none =>
      rw [loadOrFitCell_absent hfs]
      exact ⟨rfl, fsAllFitted_update h rfl, rfl⟩

theorem cs3ConstructStep_allFitted {fs : FS} (m : String) (h : fsAllFitted fs) :
    fsAllFitted (cs3ConstructStep m fs).1 := by
  unfold cs3ConstructStep
  cases hfs : fs (cs3SaveFile m) with
  | some g => exact h
  | none => exact fsAllFitted_update h rfl

theorem cs3ConstructStep_mono {fs : FS} (m : String) {p : String} {g : Gen}
    (h : fs p = some g) : (cs3ConstructStep m fs).1 p = some g := by
  unfold cs3ConstructStep
  cases hfs : fs (cs3SaveFile m) with
  | some g' => exact h
  | none =>
      by_cases hp : p = cs3SaveFile m
      · rw [hp] at h
        rw [hfs] at h
        cases h
      · simpa [fsUpdate_other _ _ _ _ hp] using h

theorem cs3ConstructStep_self {fs : FS} (m : String) :
    ∃ g, (cs3ConstructStep m fs).1 (cs3SaveFile m) = some g := by
  unfold cs3ConstructStep
  cases hfs : fs (cs3SaveFile m) with
  | some g => exact ⟨g, hfs⟩
  | none => exact ⟨⟨m, true⟩, fsUpdate_self _ _ _⟩

theorem cs3ConstructStep_trace (fs : FS) (m : String) :
    allGenFitted (cs3ConstructStep m fs).2 = true := by
  unfold cs3ConstructStep
  cases hfs : fs (cs3SaveFile m) with
  | some g => rfl
  | none => rfl

theorem cs3EvalStep_ok {fs : FS} {m : String} {g : Gen} (h : fs (cs3SaveFile m) = some g) :
    cs3EvalStep m fs = Except.ok [Act.load (cs3SaveFile m), Act.generate g.name g.fitted] := by
  unfold cs3EvalStep
  rw [h]

theorem cs3EvalRun_ok {fs : FS} (h : fsAllFitted fs)
    (h1 : ∃ g, fs (cs3SaveFile "dpgan") = some g)
    (h2 : ∃ g, fs (cs3SaveFile "adsgan") = some g)
    (h3 : ∃ g, fs (cs3SaveFile "pategan") = some g) :
    ∃ tr, cs3EvalRun fs = Except.ok tr ∧ allGenFitted tr = true := by
  obtain ⟨g1, hg1⟩ := h1
  obtain ⟨g2, hg2⟩ := h2
  obtain ⟨g3, hg3⟩ := h3
  refine ⟨[Act.load (cs3SaveFile "dpgan"), Act.generate g1.name g1.fitted]
      ++ [Act.load (cs3SaveFile "adsgan"), Act.generate g2.name g2.fitted]
      ++ [Act.load (cs3SaveFile "pategan"), Act.generate g3.name g3.fitted], ?_, ?_⟩
  · unfold cs3EvalRun
    rw [cs3EvalStep_ok hg1, cs3EvalStep_ok hg2, cs3EvalStep_ok hg3]
  · simp [allGenFitted, genFitted, h _ _ hg1, h _ _ hg2, h _ _ hg3]

/-- C1: in the generator-construction cells, when the backup file at the
computed save path exists the generator is loaded from it and `fit` is not
called, and otherwise a fresh plugin is obtained, fit, and saved to exactly
that path — amended for Case Study 3, whose construction loop performs
nothing at all when the backup exists (no load), the load happening
unconditionally in the subsequent evaluation cell. -/
theorem C1_load_or_fit (fs : FS) :
    ((∀ g, fs cs2SaveFile = some g →
        cs2LoadOrFit fs = (g, fs, [Act.load cs2SaveFile])) ∧
      (fs cs2SaveFile = none →
        cs2LoadOrFit fs =
          (⟨cs2Model, true⟩, fsUpdate fs cs2SaveFile ⟨cs2Model, true⟩,
            [Act.getPlugin cs2Model, Act.fitCall cs2Model, Act.save cs2SaveFile]))) ∧
    ((∀ g, fs cs4SaveFile = some g →
        cs4LoadOrFit fs = (g, fs, [Act.load cs4SaveFile])) ∧
      (fs cs4SaveFile = none →
        cs4LoadOrFit fs =
          (⟨"radialgan", true⟩, fsUpdate fs cs4SaveFile ⟨"radialgan", true⟩,
            [Act.getPlugin "radialgan", Act.fitCall "radialgan", Act.save cs4SaveFile]))) ∧
    (∀ m, (∀ g, fs (cs3SaveFile m) = some g → cs3ConstructStep m fs = (fs, [])) ∧
      (fs (cs3SaveFile m) = none →
        cs3ConstructStep m fs =
          (fsUpdate fs (cs3SaveFile m) ⟨m, true⟩,
            [Act.getPlugin m, Act.fitCall m, Act.save (cs3SaveFile m)])) ∧
      (∀ g, fs (cs3SaveFile m) = some g →
        cs3EvalStep m fs =
          Except.ok [Act.load (cs3SaveFile m), Act.generate g.name g.fitted])) := by
  refine ⟨⟨fun g hg => loadOrFitCell_exists hg, fun hn => loadOrFitCell_absent hn⟩,
    ⟨fun g hg => loadOrFitCell_exists hg, fun hn => loadOrFitCell_absent hn⟩,
    fun m => ⟨fun g hg => ?_, fun hn => ?_, fun g hg => cs3EvalStep_ok hg⟩⟩
  · unfold cs3ConstructStep
    rw [hg]
  · unfold cs3ConstructStep
    rw [hn]
    rfl

/-- C1 witness: both branches of each cell, at concrete file systems. -/
theorem C1_load_or_fit_witness :
    cs2LoadOrFit (fsUpdate fsEmpty cs2SaveFile ⟨"ctgan", true⟩)
      = (⟨"ctgan", true⟩, fsUpdate fsEmpty cs2SaveFile ⟨"ctgan", true⟩,
          [Act.load cs2SaveFile]) ∧
    cs2LoadOrFit fsEmpty
      = (⟨cs2Model, true⟩, fsUpdate fsEmpty cs2SaveFile ⟨cs2Model, true⟩,
          [Act.getPlugin cs2Model, Act.fitCall cs2Model, Act.save cs2SaveFile]) ∧
    cs4LoadOrFit fsEmpty
      = (⟨"radialgan", true⟩, fsUpdate fsEmpty cs4SaveFile ⟨"radialgan", true⟩,
          [Act.getPlugin "radialgan", Act.fitCall "radialgan", Act.save cs4SaveFile]) ∧
    cs3ConstructStep "dpgan" fsEmpty
      = (fsUpdate fsEmpty (cs3SaveFile "dpgan") ⟨"dpgan", true⟩,
          [Act.getPlugin "dpgan", Act.fitCall "dpgan", Act.save (cs3SaveFile "dpgan")]) ∧
    cs3EvalStep "dpgan" (fsUpdate fsEmpty (cs3SaveFile "dpgan") ⟨"dpgan", true⟩)
      = Except.ok [Act.load (cs3SaveFile "dpgan"), Act.generate "dpgan" true] :=
  ⟨(C1_load_or_fit _).1.1 _ (fsUpdate_self _ _ _),
    (C1_load_or_fit fsEmpty).1.2 rfl,
    (C1_load_or_fit fsEmpty).2.1.2 rfl,
    ((C1_load_or_fit fsEmpty).2.2 "dpgan").2.1 rfl,
    ((C1_load_or_fit _).2.2 "dpgan").2.2 _ (fsUpdate_self _ _ _)⟩

/-- C1 counterexample: in the Case Study 3 construction loop, when the dpgan
backup file exists the iteration performs no `serialization.load_from_file`
at all (its action trace is empty), contrary to the claim that the generator
is then loaded from that file in that cell. -/
theorem C1_load_or_fit_counterexample :
    (fsUpdate fsEmpty (cs3SaveFile "dpgan") ⟨"dpgan", true⟩) (cs3SaveFile "dpgan")
        = some ⟨"dpgan", true⟩ ∧
    ¬ Act.load (cs3SaveFile "dpgan") ∈
        (cs3ConstructStep "dpgan"
          (fsUpdate fsEmpty (cs3SaveFile "dpgan") ⟨"dpgan", true⟩)).2 := by
  constructor
  · exact fsUpdate_self _ _ _
  · simp [cs3ConstructStep, fsUpdate]

/-- C4: re-running a load-or-fit cell after a first run that fit-and-saved is
idempotent: the second run takes the load branch (its only action is the
load, so no fit occurs), leaves the file system — in particular the backup
file — unchanged, and binds exactly the deserialization of the generator
state the first run saved at the path. -/
theorem C4_rerun_idempotent (fs0 : FS)
    (h2 : fs0 cs2SaveFile = none) (h4 : fs0 cs4SaveFile = none) :
    ((cs2LoadOrFit fs0).2.1 cs2SaveFile = some (cs2LoadOrFit fs0).1 ∧
      cs2LoadOrFit ((cs2LoadOrFit fs0).2.1)
        = ((cs2LoadOrFit fs0).1, (cs2LoadOrFit fs0).2.1, [Act.load cs2SaveFile])) ∧
    ((cs4LoadOrFit fs0).2.1 cs4SaveFile = some (cs4LoadOrFit fs0).1 ∧
      cs4LoadOrFit ((cs4LoadOrFit fs0).2.1)
        = ((cs4LoadOrFit fs0).1, (cs4LoadOrFit fs0).2.1, [Act.load cs4SaveFile])) := by
  have e2 : cs2LoadOrFit fs0 =
      (⟨cs2Model, true⟩, fsUpdate fs0 cs2SaveFile ⟨cs2Model, true⟩,
        [Act.getPlugin cs2Model, Act.fitCall cs2Model, Act.save cs2SaveFile]) :=
    loadOrFitCell_absent h2
  have e4 : cs4LoadOrFit fs0 =
      (⟨"radialgan", true⟩, fsUpdate fs0 cs4SaveFile ⟨"radialgan", true⟩,
        [Act.getPlugin "radialgan", Act.fitCall "radialgan", Act.save cs4SaveFile]) :=
    loadOrFitCell_absent h4
  rw [e2, e4]
  exact ⟨⟨fsUpdate_self fs0 cs2SaveFile ⟨cs2Model, true⟩,
      @loadOrFitCell_exists (fsUpdate fs0 cs2SaveFile ⟨cs2Model, true⟩)
        cs2SaveFile cs2Model ⟨cs2Model, true⟩
        (fsUpdate_self fs0 cs2SaveFile ⟨cs2Model, true⟩)⟩,
    ⟨fsUpdate_self fs0 cs4SaveFile ⟨"radialgan", true⟩,
      @loadOrFitCell_exists (fsUpdate fs0 cs4SaveFile ⟨"radialgan", true⟩)
        cs4SaveFile "radialgan" ⟨"radialgan", true⟩
        (fsUpdate_self fs0 cs4SaveFile ⟨"radialgan", true⟩)⟩⟩

/-- C4 witness: the second run after a first run from an empty file system. -/
theorem C4_rerun_idempotent_witness :
    cs2LoadOrFit ((cs2LoadOrFit fsEmpty).2.1)
      = ((cs2LoadOrFit fsEmpty).1, (cs2LoadOrFit fsEmpty).2.1, [Act.load cs2SaveFile]) ∧
    cs4LoadOrFit ((cs4LoadOrFit fsEmpty).2.1)
      = ((cs4LoadOrFit fsEmpty).1, (cs4LoadOrFit fsEmpty).2.1, [Act.load cs4SaveFile]) :=
  ⟨(C4_rerun_idempotent fsEmpty rfl rfl).1.2, (C4_rerun_idempotent fsEmpty rfl rfl).2.2⟩

/-- C6: no notebook-defined error handling exists: when an underlying file
call fails (a backup or pickle file is absent at the computed path), the cell
fails with exactly that error — the Case Study 3 evaluation loop aborts with
the underlying file error of the first iteration, and the Case Study 2
prognostic-model pickle load surfaces the file error unmodified. -/
theorem C6_errors_propagate (fs : FS) (rfs : RFS)
    (h1 : fs (cs3SaveFile "dpgan") = none) (h2 : rfs cs2PrognosticPath = none) :
    cs3EvalRun fs = Except.error ("file not found: " ++ cs3SaveFile "dpgan") ∧
    cs2LoadPrognostic rfs = Except.error ("file not found: " ++ cs2PrognosticPath) := by
  constructor
  · unfold cs3EvalRun cs3EvalStep
    rw [h1]
  · unfold cs2LoadPrognostic
    rw [h2]

/-- C6 witness: with no files on disk, both cells fail with the file error. -/
theorem C6_errors_propagate_witness :
    cs3EvalRun fsEmpty = Except.error ("file not found: " ++ cs3SaveFile "dpgan") ∧
    cs2LoadPrognostic rfsEmpty
      = Except.error ("file not found: " ++ cs2PrognosticPath) :=
  C6_errors_propagate fsEmpty rfsEmpty rfl rfl

/-- C3: amended — every backup filename used to cache a fitted generator
encodes the model name and the random seed of that fit; the decaf, privacy
(dpgan/adsgan/pategan), and radialgan filenames also encode the
training-iteration count, but the ctgan filename of Case Study 2 contains no
iteration-count component at all. -/
theorem C3_filename_encoding :
    (encodes cs2SaveFile cs2Model = true ∧
      encodes cs2SaveFile ("rnd=" ++ toString cs2RandomState) = true ∧
      encodes cs2SaveFile "n_iter" = false) ∧
    (encodes cs2DecafSaveFile "decaf" = true ∧
      encodes cs2DecafSaveFile ("n_iter=" ++ toString 101) = true ∧
      encodes cs2DecafSaveFile ("rnd=" ++ toString 6) = true) ∧
    (encodes (cs3SaveFile "dpgan") "dpgan" = true ∧
      encodes (cs3SaveFile "adsgan") "adsgan" = true ∧
      encodes (cs3SaveFile "pategan") "pategan" = true ∧
      ∀ m ∈ cs3Models,
        encodes (cs3SaveFile m) ("n_iter=" ++ toString cs3NIter) = true ∧
        encodes (cs3SaveFile m) ("rnd=" ++ toString cs3RandomState) = true) ∧
    (encodes cs4SaveFile "radialgan" = true ∧
      encodes cs4SaveFile ("n_iter=" ++ toString 100) = true ∧
      encodes cs4SaveFile ("rnd=" ++ toString 7) = true) := by
  decide

/-- C3 counterexample: the ctgan backup filename of Case Study 2 does not
encode any training-iteration count: it has no `n_iter` component, and the
only digits it contains are `42`, the random seed. -/
theorem C3_filename_encoding_counterexample :
    encodes cs2SaveFile "n_iter" = false ∧
    List.filter Char.isDigit cs2SaveFile.toList = ['4', '2'] := by
  decide

/-- C2: in every notebook's linear execution, `generate` is only ever reached
on a generator that is fit — either fit earlier in the same run, or restored
from a backup file that was written right after a fit (hypothesis
`fsAllFitted`: every pre-existing backup holds a fitted state). -/
theorem C2_fit_before_generate (fs : FS) (h : fsAllFitted fs) :
    allGenFitted cs1Trace = true ∧
    allGenFitted (cs2Trace fs) = true ∧
    (∃ tr, cs3Run fs = Except.ok tr ∧ allGenFitted tr = true) ∧
    allGenFitted (cs4Trace fs) = true := by
  refine ⟨rfl, ?_, ?_, ?_⟩
  · obtain ⟨hf1, hfs1, ht1⟩ := loadOrFitCell_spec cs2SaveFile cs2Model h
    obtain ⟨hf2, hfs2, ht2⟩ := loadOrFitCell_spec cs2DecafSaveFile "decaf" hfs1
    unfold cs2Trace cs2LoadOrFit cs2DecafLoadOrFit
    simp only [allGenFitted_append, Bool.and_eq_true]
    refine ⟨⟨⟨ht1, ?_⟩, ht2⟩, ?_⟩
    · simp [allGenFitted, genFitted, hf1]
    · simp [allGenFitted, genFitted, hf2]
  · have hA : fsAllFitted (cs3ConstructRun fs).1 :=
      cs3ConstructStep_allFitted "pategan"
        (cs3ConstructStep_allFitted "adsgan" (cs3ConstructStep_allFitted "dpgan" h))
    have hdp : ∃ g, (cs3ConstructRun fs).1 (cs3SaveFile "dpgan") = some g := by
      obtain ⟨g, hg⟩ := @cs3ConstructStep_self fs "dpgan"
      exact ⟨g, cs3ConstructStep_mono "pategan" (cs3ConstructStep_mono "adsgan" hg)⟩
    have hads : ∃ g, (cs3ConstructRun fs).1 (cs3SaveFile "adsgan") = some g := by
      obtain ⟨g, hg⟩ :=
        @cs3ConstructStep_self (cs3ConstructStep "dpgan" fs).1 "adsgan"
      exact ⟨g, cs3ConstructStep_mono "pategan" hg⟩
    have hpat : ∃ g, (cs3ConstructRun fs).1 (cs3SaveFile "pategan") = some g :=
      cs3ConstructStep_self "pategan"
    obtain ⟨tr2, htr2, hfit2⟩ := cs3EvalRun_ok hA hdp hads hpat
    refine ⟨(cs3ConstructRun fs).2 ++ tr2, ?_, ?_⟩
    · simp only [cs3Run, htr2]
    · rw [allGenFitted_append, hfit2]
      simp [cs3ConstructRun, allGenFitted_append, cs3ConstructStep_trace]
  · obtain ⟨hf, hfs1, ht⟩ := loadOrFitCell_spec cs4SaveFile "radialgan" h
    unfold cs4Trace cs4LoadOrFit
    simp only [allGenFitted_append, Bool.and_eq_true]
    refine ⟨⟨ht, ?_⟩, ?_⟩
    · simp [allGenFitted, genFitted, hf]
    · simp [allGenFitted, genFitted, List.all_map, hf, cs4GeneratedRecords]

/-- C2 witness: a first-ever run (no backups on disk) satisfies the
hypothesis vacuously and every generate runs on a freshly fit generator. -/
theorem C2_fit_before_generate_witness :
    allGenFitted cs1Trace = true ∧
    allGenFitted (cs2Trace fsEmpty) = true ∧
    allGenFitted (cs4Trace fsEmpty) = true :=
  ⟨(C2_fit_before_generate fsEmpty (fun _ _ hpg => Option.noConfusion hpg)).1,
    (C2_fit_before_generate fsEmpty (fun _ _ hpg => Option.noConfusion hpg)).2.1,
    (C2_fit_before_generate fsEmpty (fun _ _ hpg => Option.noConfusion hpg)).2.2.2⟩

/-- C8: amended — for every row with `is_dead ∈ {0,1}` the three masked
assignments are total and consistent: afterwards the new column equals 1 iff
`is_dead = 1` and `Days_hospital_to_outcome ≤ 14` and equals 0 otherwise, and
no other column of the row is modified; at least one of the three assignment
conditions applies to each such row, but not always exactly one: at most two
apply, and when two do they are the second and third masks, which both
assign 0. -/
theorem C8_time_horizon_labeling (r : CRow) (h : r.is_dead = 0 ∨ r.is_dead = 1) :
    (labelRow r).1 = r ∧
    (labelRow r).2
      = some (if r.is_dead = 1 ∧ r.days_hospital_to_outcome ≤ 14 then 1 else 0) ∧
    1 ≤ condCount r ∧ condCount r ≤ 2 ∧
    (condCount r = 2 → cond2 r = true ∧ cond3 r = true ∧ cond1 r = false) := by
  have hval : (labelRow r).2
      = (if cond3 r then some 0 else if cond2 r then some 0
          else if cond1 r then some 1 else none) := rfl
  rcases h with hde | hde
  · rcases le_or_lt r.days_hospital_to_outcome 14 with hd | hd
    · refine ⟨rfl, ?_, ?_, ?_, ?_⟩ <;>
        simp [hval, condCount, cond1, cond2, cond3, hde, hd, not_lt.mpr hd]
    · refine ⟨rfl, ?_, ?_, ?_, ?_⟩ <;>
        simp [hval, condCount, cond1, cond2, cond3, hde, hd, not_le.mpr hd]
  · rcases le_or_lt r.days_hospital_to_outcome 14 with hd | hd
    · refine ⟨rfl, ?_, ?_, ?_, ?_⟩ <;>
        simp [hval, condCount, cond1, cond2, cond3, hde, hd, not_lt.mpr hd]
    · refine ⟨rfl, ?_, ?_, ?_, ?_⟩ <;>
        simp [hval, condCount, cond1, cond2, cond3, hde, hd, not_le.mpr hd]

/-- C8 witness: a row that dies within the horizon is labeled 1 and its
other columns are untouched. -/
theorem C8_time_horizon_labeling_witness :
    (labelRow ⟨1, 10, 7⟩).1 = (⟨1, 10, 7⟩ : CRow) ∧
    (labelRow ⟨1, 10, 7⟩).2
      = some (if (1 : Int) = 1 ∧ (10 : Int) ≤ 14 then 1 else 0) :=
  ⟨(C8_time_horizon_labeling ⟨1, 10, 7⟩ (Or.inr rfl)).1,
    (C8_time_horizon_labeling ⟨1, 10, 7⟩ (Or.inr rfl)).2.1⟩

/-- C8 counterexample: the row with `is_dead = 0` and
`Days_hospital_to_outcome = 20` is selected by two of the three assignment
masks (the `> 14` mask and the `is_dead == 0` mask), refuting that exactly
one condition applies to every row with `is_dead ∈ {0,1}`. -/
theorem C8_time_horizon_labeling_counterexample :
    (CRow.mk 0 20 0).is_dead = 0 ∧ condCount ⟨0, 20, 0⟩ = 2 := by
  decide

/-- C9: the conditional-augmentation step preserves the real data:
`augmented_data` is the original DataFrame followed by exactly the synthetic
records with `Ethnicity >= 2` — the first `len X` rows are `X` unchanged,
every appended row is a synthetic record with `Ethnicity >= 2` (so synthetic
rows with ethnicity 0 or 1 never enter), and the row count is the number of
real rows plus the number of generated rows with `Ethnicity >= 2`. -/
theorem C9_augmentation_preserves_real (x synData : List ERow) :
    augmentedData x synData
      = x ++ synData.filter (fun r => decide (2 ≤ r.ethnicity)) ∧
    (augmentedData x synData).take x.length = x ∧
    ((augmentedData x synData).drop x.length).all
        (fun r => decide (2 ≤ r.ethnicity) && decide (r ∈ synData)) = true ∧
    (augmentedData x synData).length
      = x.length + (synData.filter (fun r => decide (2 ≤ r.ethnicity))).length := by
  refine ⟨rfl, ?_, ?_, ?_⟩
  · exact List.take_left x _
  · rw [show augmentedData x synData
        = x ++ synData.filter (fun r => decide (2 ≤ r.ethnicity)) from rfl]
    rw [List.drop_left]
    rw [List.all_eq_true]
    intro r hr
    have hmem := List.mem_filter.mp hr
    simp only [Bool.and_eq_true, decide_eq_true_eq]
    exact ⟨by simpa using hmem.2, hmem.1⟩
  · simp [augmentedData]

/-- C9 witness: a concrete real dataset and synthetic batch; the minority
synthetic row enters, the majority one does not. -/
theorem C9_augmentation_preserves_real_witness :
    (augmentedData [⟨0, 1⟩] [⟨1, 2⟩, ⟨3, 4⟩]).take 1 = [(⟨0, 1⟩ : ERow)] ∧
    (augmentedData [⟨0, 1⟩] [⟨1, 2⟩, ⟨3, 4⟩]).length
      = 1 + (([⟨1, 2⟩, ⟨3, 4⟩] : List ERow).filter
          (fun r => decide (2 ≤ r.ethnicity))).length :=
  ⟨(C9_augmentation_preserves_real [⟨0, 1⟩] [⟨1, 2⟩, ⟨3, 4⟩]).2.1,
    (C9_augmentation_preserves_real [⟨0, 1⟩] [⟨1, 2⟩, ⟨3, 4⟩]).2.2.2⟩

theorem dedup_const {c : Int} :
    ∀ {l : List Int}, (∀ x ∈ l, x = c) → l.dedup = [] ∨ l.dedup = [c] := by
  intro l
  induction l with
  | nil => intro _; left; rfl
  | cons a as ih =>
      intro h
      have ha : a = c := h a (List.mem_cons_self a as)
      subst ha
      by_cases hmem : a ∈ as
      · rw [List.dedup_cons_of_mem hmem]
        rcases ih (fun x hx => h x (List.mem_cons_of_mem _ hx)) with h0 | h1
        · exact absurd (List.mem_dedup.mpr hmem)
            (by rw [h0]; exact List.not_mem_nil a)
        · right
          exact h1
      · rw [List.dedup_cons_of_not_mem hmem]
        right
        have has : as = [] := by
          cases has : as with
          | nil => rfl
          | cons b bs =>
              exfalso
              apply hmem
              rw [has]
              have hb : b = a :=
                h b (by rw [has]; exact List.mem_cons_of_mem a (List.mem_cons_self b bs))
              exact hb ▸ List.mem_cons_self b bs
        rw [has]
        rfl

theorem uniqueSorted_const {l : List Int} {c : Int} (h : ∀ x ∈ l, x = c) :
    uniqueSorted l = [] ∨ uniqueSorted l = [c] := by
  unfold uniqueSorted sortInts
  rcases dedup_const h with h0 | h1
  · rw [h0]
    left
    rfl
  · rw [h1]
    right
    rfl

theorem predStep_const_error {synth : List ERow} {f : ERow → Int} {c : Int}
    (h : ∀ r ∈ synth, f r = c) (e : Int) :
    predStep synth f e = Except.error "IndexError: index 1 is out of bounds" := by
  unfold predStep
  have hp : ∀ x ∈ synth.map f, x = c := by
    intro x hx
    obtain ⟨r, hr, hrx⟩ := List.mem_map.mp hx
    rw [← hrx]
    exact h r hr
  rcases uniqueSorted_const hp with h0 | h1
  · simp [h0]
  · simp [h1]

theorem predLoop_const_error {synth : List ERow} {f : ERow → Int} {c : Int}
    (h : ∀ r ∈ synth, f r = c) (e : Int) (es : List Int) :
    predLoop (e :: es) synth f
      = Except.error "IndexError: index 1 is out of bounds" := by
  unfold predLoop
  rw [predStep_const_error h e]

theorem predLoop_mem (synth : List ERow) (f : ERow → Int) :
    ∀ (eths : List Int) (res : List (Int × ((Int × Nat) × (Int × Nat)))),
      predLoop eths synth f = Except.ok res →
      ∀ p ∈ res, predStep synth f p.1 = Except.ok p.2 := by
  intro eths
  induction eths with
  | nil =>
      intro res h p hp
      unfold predLoop at h
      cases h
      cases hp
  | cons e es ih =>
      intro res h p hp
      unfold predLoop at h
      cases hs : predStep synth f e with
      | error err =>
          rw [hs] at h
          exact Except.noConfusion h
      | ok q =>
          rw [hs] at h
          cases hrec : predLoop es synth f with
          | error err =>
              rw [hrec] at h
              exact Except.noConfusion h
          | ok ps =>
              rw [hrec] at h
              cases h
              rcases List.mem_cons.mp hp with hpe | hps
              · rw [hpe]
                exact hs
              · exact ih ps hrec p hps

/-- C10: in the DECAF fairness-plot loop, predictions are computed on the
entire synthetic dataset rather than on the per-ethnicity slice the loop
constructs, so the step outcome is independent of the ethnicity index and
all recorded prediction counts are identical across groups; and the
`prediction_counts` construction from `unique[0]`, `unique[1]`, `counts[0]`,
`counts[1]` fails with an out-of-bounds index as soon as the classifier
predicts a single class everywhere. -/
theorem C10_decaf_prediction_loop (eths : List Int) (synth : List ERow)
    (f : ERow → Int) :
    (∀ e1 e2, predStep synth f e1 = predStep synth f e2) ∧
    (∀ res, predLoop eths synth f = Except.ok res →
      ∀ p ∈ res, ∀ q ∈ res, p.2 = q.2) ∧
    (∀ c, (∀ r ∈ synth, f r = c) → eths ≠ [] →
      predLoop eths synth f
        = Except.error "IndexError: index 1 is out of bounds") := by
  refine ⟨fun e1 e2 => rfl, ?_, ?_⟩
  · intro res h p hp q hq
    have h1 := predLoop_mem synth f eths res h p hp
    have h2 := predLoop_mem synth f eths res h q hq
    have hind : predStep synth f p.1 = predStep synth f q.1 := rfl
    exact Except.ok.inj (h1.symm.trans (hind.trans h2))
  · intro c hc hne
    cases eths with
    | nil => exact absurd rfl hne
    | cons e es => exact predLoop_const_error hc e es

/-- C10 witness: a two-class predictor gives the same step result for both
ethnicity groups; a constant predictor crashes the loop. -/
theorem C10_decaf_prediction_loop_witness :
    predStep synthTwo predictPayload 0 = predStep synthTwo predictPayload 1 ∧
    predLoop [0, 1] synthTwo predictConst
      = Except.error "IndexError: index 1 is out of bounds" :=
  ⟨(C10_decaf_prediction_loop [0, 1] synthTwo predictPayload).1 0 1,
    (C10_decaf_prediction_loop [0, 1] synthTwo predictConst).2.2 1
      (by decide) (by decide)⟩

theorem foldl_min_le_init (l : List ℚ) (a : ℚ) : l.foldl min a ≤ a := by
  induction l generalizing a with
  | nil => exact le_refl a
  | cons b bs ih => exact le_trans (ih (min a b)) (min_le_left a b)

theorem foldl_min_le_mem (x : ℚ) :
    ∀ (l : List ℚ) (a : ℚ), x ∈ l → l.foldl min a ≤ x := by
  intro l
  induction l with
  | nil => intro a hx; cases hx
  | cons b bs ih =>
      intro a hx
      rcases List.mem_cons.mp hx with h | h
      · subst h
        exact le_trans (foldl_min_le_init bs (min a x)) (min_le_right a x)
      · exact ih (min a b) h

theorem foldl_min_mem (l : List ℚ) (a : ℚ) : l.foldl min a = a ∨ l.foldl min a ∈ l := by
  induction l generalizing a with
  | nil => left; rfl
  | cons b bs ih =>
      rw [List.foldl_cons]
      rcases ih (min a b) with h | h
      · rcases min_choice a b with hab | hab
        · left
          rw [h, hab]
        · right
          rw [h, hab]
          exact List.mem_cons_self b bs
      · right
        exact List.mem_cons_of_mem b h

theorem foldl_max_init_le (l : List ℚ) (a : ℚ) : a ≤ l.foldl max a := by
  induction l generalizing a with
  | nil => exact le_refl a
  | cons b bs ih => exact le_trans (le_max_left a b) (ih (max a b))

theorem foldl_max_mem_le (x : ℚ) :
    ∀ (l : List ℚ) (a : ℚ), x ∈ l → x ≤ l.foldl max a := by
  intro l
  induction l with
  | nil => intro a hx; cases hx
  | cons b bs ih =>
      intro a hx
      rcases List.mem_cons.mp hx with h | h
      · subst h
        exact le_trans (le_max_right a x) (foldl_max_init_le bs (max a x))
      · exact ih (max a b) h

theorem foldl_max_mem (l : List ℚ) (a : ℚ) : l.foldl max a = a ∨ l.foldl max a ∈ l := by
  induction l generalizing a with
  | nil => left; rfl
  | cons b bs ih =>
      rw [List.foldl_cons]
      rcases ih (max a b) with h | h
      · rcases max_choice a b with hab | hab
        · left
          rw [h, hab]
        · right
          rw [h, hab]
          exact List.mem_cons_self b bs
      · right
        exact List.mem_cons_of_mem b h

theorem rowMin_le {row : List ℚ} {x : ℚ} (hx : x ∈ row) : rowMin row ≤ x := by
  cases row with
  | nil => cases hx
  | cons y ys =>
      rcases List.mem_cons.mp hx with h | h
      · subst h
        exact foldl_min_le_init ys x
      · exact foldl_min_le_mem x ys y h

theorem rowMax_ge {row : List ℚ} {x : ℚ} (hx : x ∈ row) : x ≤ rowMax row := by
  cases row with
  | nil => cases hx
  | cons y ys =>
      rcases List.mem_cons.mp hx with h | h
      · subst h
        exact foldl_max_init_le ys x
      · exact foldl_max_mem_le x ys y h

theorem rowMin_mem {row : List ℚ} (h : row ≠ []) : rowMin row ∈ row := by
  cases row with
  | nil => exact absurd rfl h
  | cons y ys =>
      show ys.foldl min y ∈ y :: ys
      rcases foldl_min_mem ys y with h1 | h1
      · rw [h1]
        exact List.mem_cons_self y ys
      · exact List.mem_cons_of_mem y h1

theorem rowMax_mem {row : List ℚ} (h : row ≠ []) : rowMax row ∈ row := by
  cases row with
  | nil => exact absurd rfl h
  | cons y ys =>
      show ys.foldl max y ∈ y :: ys
      rcases foldl_max_mem ys y with h1 | h1
      · rw [h1]
        exact List.mem_cons_self y ys
      · exact List.mem_cons_of_mem y h1

theorem rowMin_eq_of_isMin {row : List ℚ} {v : ℚ} (hv : v ∈ row)
    (h : ∀ x ∈ row, v ≤ x) : rowMin row = v :=
  le_antisymm (rowMin_le hv) (h _ (rowMin_mem (List.ne_nil_of_mem hv)))

theorem rowMax_eq_of_isMax {row : List ℚ} {v : ℚ} (hv : v ∈ row)
    (h : ∀ x ∈ row, x ≤ v) : rowMax row = v :=
  le_antisymm (h _ (rowMax_mem (List.ne_nil_of_mem hv))) (rowMax_ge hv)

theorem highlights_getElem {direction : String} {row : List ℚ} {i : Nat} {v : ℚ}
    (hv : row[i]? = some v) {s : String}
    (hs : (if v = (if direction = "minimize" then rowMin row else rowMax row)
        then okHighlight
        else if v = (if direction = "minimize" then rowMax row else rowMin row)
          then badHighlight
          else defaultStyle) = s) :
    (highlights direction row)[i]? = some s := by
  simp only [highlights]
  rw [List.getElem?_map, hv, Option.map_some']
  rw [hs]

/-- C5: the `highlights` styling function returns one style per column; on a
minimize row, cells holding the row minimum get the green (best) style,
cells holding the row maximum (when not all values are equal) get the red
(worst) style, all other cells get the empty default style; symmetrically
with minimum and maximum swapped on a maximize row; and when all values in
a row are equal every cell gets the green style. -/
theorem C5_highlights_styles (direction : String) (row : List ℚ) :
    (highlights direction row).length = row.length ∧
    (∀ (i : ℕ) (v : ℚ), row[i]? = some v →
      ((∀ x ∈ row, x = v) → (highlights direction row)[i]? = some okHighlight) ∧
      (direction = "minimize" →
        ((∀ x ∈ row, v ≤ x) → (highlights direction row)[i]? = some okHighlight) ∧
        ((∀ x ∈ row, x ≤ v) → (¬ ∀ x ∈ row, x = v) →
          (highlights direction row)[i]? = some badHighlight) ∧
        ((¬ ∀ x ∈ row, v ≤ x) → (¬ ∀ x ∈ row, x ≤ v) →
          (highlights direction row)[i]? = some defaultStyle)) ∧
      (direction = "maximize" →
        ((∀ x ∈ row, x ≤ v) → (highlights direction row)[i]? = some okHighlight) ∧
        ((∀ x ∈ row, v ≤ x) → (¬ ∀ x ∈ row, x = v) →
          (highlights direction row)[i]? = some badHighlight) ∧
        ((¬ ∀ x ∈ row, x ≤ v) → (¬ ∀ x ∈ row, v ≤ x) →
          (highlights direction row)[i]? = some defaultStyle))) := by
  constructor
  · simp [highlights]
  · intro i v hv
    have hvm : v ∈ row := List.getElem?_mem hv
    have hne : row ≠ [] := List.ne_nil_of_mem hvm
    refine ⟨?_, ?_, ?_⟩
    · intro hall
      by_cases hdir : direction = "minimize"
      · have hmn : rowMin row = v := hall _ (rowMin_mem hne)
        exact highlights_getElem hv (by simp [hdir, hmn])
      · have hmx : rowMax row = v := hall _ (rowMax_mem hne)
        exact highlights_getElem hv (by simp [hdir, hmx])
    · intro hdir
      subst hdir
      refine ⟨?_, ?_, ?_⟩
      · intro hmin
        have hmn : rowMin row = v := rowMin_eq_of_isMin hvm hmin
        exact highlights_getElem hv (by simp [hmn])
      · intro hmax hneq
        have hmx : rowMax row = v := rowMax_eq_of_isMax hvm hmax
        have hvne : v ≠ rowMin row := by
          intro heq
          apply hneq
          intro x hx
          have h1 : rowMin row ≤ x := rowMin_le hx
          have h2 : x ≤ rowMax row := rowMax_ge hx
          rw [hmx] at h2
          rw [← heq] at h1
          exact le_antisymm h2 h1
        exact highlights_getElem hv (by simp [hvne, hmx])
      · intro hnmin hnmax
        have hvne1 : v ≠ rowMin row := by
          intro heq
          apply hnmin
          intro x hx
          rw [heq]
          exact rowMin_le hx
        have hvne2 : v ≠ rowMax row := by
          intro heq
          apply hnmax
          intro x hx
          rw [heq]
          exact rowMax_ge hx
        exact highlights_getElem hv (by simp [hvne1, hvne2])
    · intro hdir
      subst hdir
      refine ⟨?_, ?_, ?_⟩
      · intro hmax
        have hmx : rowMax row = v := rowMax_eq_of_isMax hvm hmax
        exact highlights_getElem hv (by simp [hmx])
      · intro hmin hneq
        have hmn : rowMin row = v := rowMin_eq_of_isMin hvm hmin
        have hvne : v ≠ rowMax row := by
          intro heq
          apply hneq
          intro x hx
          have h1 : rowMin row ≤ x := rowMin_le hx
          have h2 : x ≤ rowMax row := rowMax_ge hx
          rw [hmn] at h1
          rw [← heq] at h2
          exact le_antisymm h2 h1
        exact highlights_getElem hv (by simp [hvne, hmn])
      · intro hnmax hnmin
        have hvne1 : v ≠ rowMax row := by
          intro heq
          apply hnmax
          intro x hx
          rw [heq]
          exact rowMax_ge hx
        have hvne2 : v ≠ rowMin row := by
          intro heq
          apply hnmin
          intro x hx
          rw [heq]
          exact rowMin_le hx
        exact highlights_getElem hv (by simp [hvne1, hvne2])

/-- C5 witness: on the row `[3, 1, 2]` with direction minimize, the cell
holding 1 is green, the cell holding 3 is red, and the cell holding 2 is
default. -/
theorem C5_highlights_styles_witness :
    (highlights "minimize" [3, 1, 2]).length = ([3, 1, 2] : List ℚ).length ∧
    (highlights "minimize" [3, 1, 2])[1]? = some okHighlight ∧
    (highlights "minimize" [3, 1, 2])[0]? = some badHighlight ∧
    (highlights "minimize" [3, 1, 2])[2]? = some defaultStyle :=
  ⟨(C5_highlights_styles "minimize" [3, 1, 2]).1,
    (((C5_highlights_styles "minimize" [3, 1, 2]).2 1 1 rfl).2.1 rfl).1
      (by intro x hx; fin_cases hx <;> norm_num),
    (((C5_highlights_styles "minimize" [3, 1, 2]).2 0 3 rfl).2.1 rfl).2.1
      (by intro x hx; fin_cases hx <;> norm_num)
      (by intro hall; have := hall 1 (by norm_num); norm_num at this),
    (((C5_highlights_styles "minimize" [3, 1, 2]).2 2 2 rfl).2.1 rfl).2.2
      (by intro hall; have := hall 1 (by norm_num); norm_num at this)
      (by intro hall; have := hall 3 (by norm_num); norm_num at this)⟩
